import Mathlib

/-!
Verification of the in-process worker pool, synchronous bridge and
timeout-guarded generation wrapper of the Social-Media-Post-Generator
backend (`backend/performance/worker_manager.py`, `backend/app.py`,
`backend/services/text_generation/post_generator.py`).

The Python code is shallowly embedded: callables are represented by their
observable outcome (return normally or raise), wall-clock durations by
rationals, and the worker thread's loop by a fuel-indexed recursion where
the fuel counts loop iterations performed before the worker observes its
stop flag.
-/

namespace WorkerPool

/-- Outcome of calling a Python callable: it either returns a value or
raises an exception carrying a message.  This is the observable behaviour
of `job.func()` / `fn()` at the points where the embedded code calls them. -/
inductive PyResult (α : Type) where
  | ok (v : α)
  | raised (exc : String)
  deriving Repr, DecidableEq

/-- `Job` from `worker_manager.py`: a callable (modelled by its outcome),
a timeout budget and a description.  The timeout field is carried but, as
in the source, never consulted by the worker loop. -/
structure Job where
  func : PyResult Unit
  timeout : Nat := 300
  description : String := "anonymous job"
  deriving Repr, DecidableEq

/-- Log events emitted by `Worker.run` around one job. -/
inductive LogEvent where
  | started (description : String)
  | jobFailed (exc : String)
  | finished (description : String)
  deriving Repr, DecidableEq

/-- The body of `Worker.run`'s while-loop for one dequeued job:

```
try:
    job.func()
except Exception as exc:
    logger.exception(...)
finally:
    duration = ...; logger.info("finished ..."); self.job_queue.task_done()
```

Returns the log events of the iteration together with the result of the
body as a whole: `.ok ()` means the body completed normally (so the loop
continues), `.raised e` would mean an exception escaped the body and the
thread dies.  Because the `except Exception` clause catches whatever
`job.func()` raises, the body always completes normally. -/
def runJobBody (j : Job) : List LogEvent × PyResult Unit :=
  match j.func with
  | .ok _ => ([.started j.description, .finished j.description], .ok ())
  | .raised e =>
      ([.started j.description, .jobFailed e, .finished j.description], .ok ())

/-- `Worker.run`: `while not self._stop.is_set(): job = queue.get(timeout=1)
(Empty → continue); <runJobBody>`.  `fuel` is the number of loop iterations
the worker performs before it observes the stop flag at the top of the
loop (the flag is set asynchronously by `Worker.stop`; the `get(timeout=1)`
poll guarantees the flag is re-checked at least once per time unit, so
every run is of this shape for some finite fuel).  Returns the list of
executed jobs with their logs, and the jobs left in the queue when the
worker exits.  If an exception escaped the loop body the thread would die
with the rest of the queue abandoned; that branch is unreachable. -/
def workerRun : List Job → Nat → List (Job × List LogEvent) × List Job
  | q, 0 => ([], q)
  | [], fuel + 1 => workerRun [] fuel
  | j :: rest, fuel + 1 =>
      let (log, r) := runJobBody j
      match r with
      | .ok _ =>
          let (executed, abandoned) := workerRun rest fuel
          ((j, log) :: executed, abandoned)
      | .raised _ => ([(j, log)], rest)

/-- `WorkerManager.shutdown` as observed by a single worker: `stop()` sets
the worker's stop event and `join()` waits for the thread to exit.  After
the event is set the worker completes at most the iteration it is
currently inside (the in-flight job, if any) and exits at the next
loop-top check.  `inFlight` is the job the worker had already dequeued
when the event was set; `q` is the queue contents at that moment.
Returns what is executed between `stop()` and thread exit, and the queue
left behind at the moment `shutdown()` returns. -/
def shutdownRun (inFlight : Option Job) (q : List Job) :
    List (Job × List LogEvent) × List Job :=
  match inFlight with
  | none => workerRun q 0
  | some j => workerRun (j :: q) 1

/-- `WorkerManager.submit_job` on the shared queue: enqueue at the tail,
never block, never drop. -/
def submit_job (q : List Job) (j : Job) : List Job := q ++ [j]

end WorkerPool

namespace Bridge

open WorkerPool

/-- State of the per-call pair created by `run_sync_in_worker`:
`container = dict()` (the single result slot entry) and
`completed = threading.Event()`. -/
structure BridgeState (α : Type) where
  container : Option α
  completed : Bool
  deriving Repr, DecidableEq

/-- Observable events of executing `_wrap` on a worker thread: a write to
the result slot and the firing of the completion signal. -/
inductive BridgeEvent (α : Type) where
  | write (v : α)
  | signal
  deriving Repr, DecidableEq

/-- Execution of `_wrap` from `run_sync_in_worker`:

```
def _wrap():
    container["result"] = fn()
    completed.set()
```

`fn()` is evaluated first; if it raises, neither the slot write nor
`completed.set()` happens and the exception propagates out of `_wrap`
(to be caught by the worker).  Returns the final state of the pair, the
event trace, and whether `_wrap` raised. -/
def wrapExec {α : Type} (fn : PyResult α) :
    BridgeState α × List (BridgeEvent α) × PyResult Unit :=
  match fn with
  | .ok v => (⟨some v, true⟩, [.write v, .signal], .ok ())
  | .raised e => (⟨none, false⟩, [], .raised e)

/-- `run_sync_in_worker fn`: submit `_wrap` to the pool, block on
`completed.wait()` (no timeout), then return `container.get("result")`.
The outer `Option` records whether the caller ever unblocks: `some r`
means the event was set and the caller returns `r` (itself an `Option`
because `dict.get` yields `None` when the slot was never written);
`none` means the event is never set and `completed.wait()` blocks the
caller forever. -/
def run_sync_in_worker {α : Type} (fn : PyResult α) : Option (Option α) :=
  let (s, _, _) := wrapExec fn
  if s.completed then some s.container else none

/-- Number of `write` events in a trace. -/
def countWrites {α : Type} (l : List (BridgeEvent α)) : Nat :=
  (l.filter fun e => match e with | .write _ => true | .signal => false).length

/-- Number of `signal` events in a trace. -/
def countSignals {α : Type} (l : List (BridgeEvent α)) : Nat :=
  (l.filter fun e => match e with | .write _ => false | .signal => true).length

/-- Every write in the trace occurs strictly before every signal. -/
def writesBeforeSignals {α : Type} (l : List (BridgeEvent α)) : Prop :=
  ∀ i j v, l.get? i = some (.write v) → l.get? j = some .signal → i < j

end Bridge

namespace PostGen

/-!
Embedding of `backend/services/text_generation/post_generator.py`.
Python strings under manipulation are represented as `List Char`;
wall-clock durations as rationals.
-/

/-- Python's single-quote character, used in the literal phrase list below. -/
def apos : Char := Char.ofNat 39

/-- Python `str.lstrip()` restricted to whitespace. -/
def lstrip (s : List Char) : List Char := s.dropWhile Char.isWhitespace

/-- Python `str.rstrip()` restricted to whitespace. -/
def rstrip (s : List Char) : List Char := (s.reverse.dropWhile Char.isWhitespace).reverse

/-- Python `str.strip()` with no arguments: drop leading and trailing whitespace. -/
def pyStrip (s : List Char) : List Char := rstrip (lstrip s)

/-- Does `pat` occur at the head of `s`? (Helper for Python `str.replace`.) -/
def headMatch : List Char → List Char → Bool
  | [], _ => true
  | _ :: _, [] => false
  | p :: ps, c :: cs => p == c && headMatch ps cs

/-- Python `s.replace(pat, "")` for a non-empty pattern, fuel-indexed so
that it is structurally recursive: each step consumes one unit of fuel and
at least one character, so fuel equal to the length of the string
suffices. -/
def replaceAllAux (pat : List Char) : Nat → List Char → List Char
  | _, [] => []
  | 0, s => s
  | fuel + 1, c :: rest =>
      if pat ≠ [] ∧ headMatch pat (c :: rest) then
        replaceAllAux pat fuel (rest.drop (pat.length - 1))
      else
        c :: replaceAllAux pat fuel rest

/-- Python `s.replace(pat, "")` for a non-empty pattern: remove every
non-overlapping occurrence of `pat`, scanning left to right. -/
def replaceAll (pat : List Char) (s : List Char) : List Char :=
  replaceAllAux pat s.length s

/-- Python `str.split()` with no arguments: split on whitespace runs,
discarding empty pieces. -/
def pySplit (s : List Char) : List (List Char) :=
  (s.splitOnP Char.isWhitespace).filter (fun w => w ≠ [])

/-- Python `" ".join(words)`. -/
def joinSpace : List (List Char) → List Char
  | [] => []
  | [w] => w
  | w :: v :: rest => w ++ ' ' :: joinSpace (v :: rest)

/-- Python `s.endswith((chr1, chr2, chr3))` for the punctuation triple used by
the post-processor: the last character is a period, exclamation or question
mark. -/
def endsWithPunct (s : List Char) : Bool :=
  match s.getLast? with
  | some c => c == '.' || c == '!' || c == '?'
  | none => false

/-- First-character capitalization from `_post_process_generated_text`:
`if processed_text and not processed_text[0].isupper(): upper + tail`. -/
def capitalizeFirst (s : List Char) : List Char :=
  match s with
  | [] => []
  | c :: rest => if ¬ c.isUpper then c.toUpper :: rest else c :: rest

/-- `PostTone` enum. -/
inductive PostTone where
  | witty | professional | motivational | casual
  | educational | humorous | inspirational | urgent
  deriving Repr, DecidableEq

/-- `PostGenerationConfig` dataclass.  Python ints are embedded as `Int`;
the optional fields keep Python's `None` as `Option.none`. -/
structure PostGenerationConfig where
  tone : PostTone := .professional
  max_length : Int := 280
  min_length : Int := 50
  include_hashtags : Bool := true
  include_emojis : Bool := true
  platform_specific : Bool := false
  target_audience : Option (List Char) := none
  key_points : Option (List (List Char)) := none
  call_to_action : Bool := false
  generation_timeout : Int := 30
  deriving Repr, DecidableEq

/-- The redundant phrases removed by `_post_process_generated_text`. -/
def redundant_phrases : List (List Char) :=
  [['H', 'e', 'r', 'e', apos, 's', ' ', 'a'],
   "Here is a".toList, "This is a".toList, "Check out this".toList,
   "In this post".toList, "This post".toList, "Social media post:".toList,
   "Post:".toList, "Tweet:".toList, "Facebook post:".toList,
   "Instagram post:".toList]

/-- The word-boundary trim loop of `_post_process_generated_text`:
keep words while `current_length + len(word) + 1 <= max_length`,
stopping at the first word that does not fit (Python `break`). -/
def trimWords (maxLen : Int) : List (List Char) → Nat → List (List Char)
  | [], _ => []
  | w :: rest, cur =>
      if (cur : Int) + w.length + 1 ≤ maxLen then
        w :: trimWords maxLen rest (cur + w.length + 1)
      else []

/-- `PostGenerator._post_process_generated_text`. -/
def _post_process_generated_text (text : List Char) (config : PostGenerationConfig) :
    List Char :=
  if text = [] then text
  else
    let processed := redundant_phrases.foldl (fun t p => pyStrip (replaceAll p t)) text
    let processed := capitalizeFirst processed
    let processed :=
      if (processed.length : Int) > config.max_length then
        let kept := trimWords config.max_length (pySplit processed) 0
        let joined := joinSpace kept
        if ¬ endsWithPunct joined then joined ++ "...".toList else joined
      else processed
    pyStrip processed

/-- The part of each tone template before and after the spliced content
(`tone_prompts[tone].format(content=content)` inserts the content string at
the placeholder). -/
def toneTemplate : PostTone → List Char × List Char
  | .witty =>
      ("\nCreate a witty and clever social media post from this content. Use humor, wordplay, \nand smart observations. Keep it engaging and shareable. Make it sound natural and conversational.\nContent: ".toList,
       "\nPost:".toList)
  | .professional =>
      ("\nCreate a professional social media post from this content. Use clear, authoritative language.\nFocus on key insights and valuable information. Keep it polished and credible.\nContent: ".toList,
       "\nProfessional post:".toList)
  | .motivational =>
      ("\nCreate an inspiring and motivational social media post from this content. Use uplifting language,\nencourage action, and inspire your audience. Make it energetic and empowering.\nContent: ".toList,
       "\nMotivational post:".toList)
  | .casual =>
      ("\nCreate a casual, friendly social media post from this content. Use conversational language,\nbe relatable and approachable. Make it feel like talking to a friend.\nContent: ".toList,
       "\nCasual post:".toList)
  | .educational =>
      ("\nCreate an educational social media post from this content. Focus on teaching and informing.\nUse clear explanations and highlight key learning points. Make it informative yet engaging.\nContent: ".toList,
       "\nEducational post:".toList)
  | .humorous =>
      ("\nCreate a funny and entertaining social media post from this content. Use humor, jokes,\nand entertaining observations. Make people smile or laugh while sharing the message.\nContent: ".toList,
       "\nFunny post:".toList)
  | .inspirational =>
      ("\nCreate an inspirational social media post from this content. Focus on hope, dreams,\nand positive transformation. Use uplifting and encouraging language.\nContent: ".toList,
       "\nInspirational post:".toList)
  | .urgent =>
      ("\nCreate an urgent, action-oriented social media post from this content. Create a sense\nof importance and immediacy. Use compelling language that motivates quick action.\nContent: ".toList,
       "\nUrgent post:".toList)

/-- Tone-specific base prompt with the content spliced in. -/
def basePrompt (tone : PostTone) (content : List Char) : List Char :=
  (toneTemplate tone).1 ++ content ++ (toneTemplate tone).2

/-- `PostGenerator._enhance_prompt_with_context`.  Python truthiness makes
an empty target-audience string and an empty key-points list behave like
`None`. -/
def _enhance_prompt_with_context (base_prompt : List Char)
    (config : PostGenerationConfig) : List Char :=
  let enhancements : List (List Char) :=
    (if config.include_hashtags then ["Include relevant hashtags.".toList] else []) ++
    (if config.include_emojis ∧
        config.tone ∈ [PostTone.casual, PostTone.humorous, PostTone.motivational] then
       ["Use appropriate emojis.".toList] else []) ++
    (if config.call_to_action then ["End with a clear call-to-action.".toList] else []) ++
    (match config.target_audience with
     | some a => if a ≠ [] then ["Target audience: ".toList ++ a ++ ".".toList] else []
     | none => []) ++
    (match config.key_points with
     | some kps =>
         if kps ≠ [] then
           ["Key points to include: ".toList ++ List.intercalate ", ".toList kps ++ ".".toList]
         else []
     | none => [])
  if enhancements ≠ [] then base_prompt ++ ' ' :: joinSpace enhancements else base_prompt

/-- The `generation_stats` dictionary of `PostGenerator`.  The float-valued
running average is embedded as a rational. -/
structure GenerationStats where
  total_generated : Nat
  successful : Nat
  failed : Nat
  timeout : Nat
  average_generation_time : ℚ
  deriving Repr, DecidableEq

/-- The statistics a fresh `PostGenerator` starts with. -/
def initialStats : GenerationStats :=
  { total_generated := 0
    successful := 0
    failed := 0
    timeout := 0
    average_generation_time := 0 }

/-- Exceptions observable inside `generate_post`: the dedicated
`PostGenerationTimeout` and every other Python exception with its message. -/
inductive GenException where
  | postGenerationTimeout (msg : List Char)
  | otherError (msg : List Char)
  deriving Repr, DecidableEq

/-- Behaviour of the underlying `flan_t5_service.generate_text` call that
`_generate_with_timeout` submits to the two-worker auxiliary executor: the
call either completes with the dictionary entry result-text after
`duration` seconds, or raises after `duration` seconds. -/
inductive GenOutcome where
  | completes (text : List Char) (duration : ℚ)
  | raisesExc (msg : List Char) (duration : ℚ)
  deriving Repr, DecidableEq

/-- Wall-clock duration of the underlying generation call. -/
def genDuration : GenOutcome → ℚ
  | .completes _ d => d
  | .raisesExc _ d => d

/-- The message of the `PostGenerationTimeout` raised by
`_generate_with_timeout`. -/
def timeoutMsg (t : Int) : List Char :=
  "Generation timed out after ".toList ++ (toString t).toList ++ " seconds".toList

/-- `PostGenerator._generate_with_timeout`: submit the generation call to
the auxiliary executor and wait on `future.result(timeout=config.generation_timeout)`.
If the call finishes within the budget its value is returned (or its own
exception re-raised); otherwise `future.result` raises `TimeoutError`, the
wrapper increments the timeout counter and raises `PostGenerationTimeout`.
A non-positive budget makes `future.result` time out immediately for any
call still running.  The prompt is forwarded to the opaque model call,
whose behaviour is abstracted by `outcome`. -/
def _generate_with_timeout (stats : GenerationStats) (prompt : List Char)
    (outcome : GenOutcome) (config : PostGenerationConfig) :
    GenerationStats × Except GenException (List Char) :=
  let _ := prompt
  match outcome with
  | .completes text d =>
      if d ≤ (config.generation_timeout : ℚ) then (stats, .ok text)
      else
        ({ stats with timeout := stats.timeout + 1 },
         .error (.postGenerationTimeout (timeoutMsg config.generation_timeout)))
  | .raisesExc msg d =>
      if d ≤ (config.generation_timeout : ℚ) then (stats, .error (.otherError msg))
      else
        ({ stats with timeout := stats.timeout + 1 },
         .error (.postGenerationTimeout (timeoutMsg config.generation_timeout)))

/-- The dictionary returned by `PostGenerator.generate_post`, restricted to
the fields shared by the three outcome shapes (the success-only `config`
echo and `metadata` sub-dictionaries are not modelled; `word_count` and
`character_count` exist only on the success dictionary, embedded as
options). -/
structure PostResult where
  post : List Char
  error : Option (List Char)
  status : String
  generation_time : ℚ
  word_count : Option Nat
  character_count : Option Nat
  deriving Repr, DecidableEq

/-- `PostGenerator.generate_post`.  The elapsed `time.time() - start_time`
readings are modelled by the duration of the underlying call: (almost) zero
for the validation failure, the call's own duration for success and for an
exception re-raised within budget, and the full budget for a timeout. -/
def generate_post (stats : GenerationStats) (content : List Char)
    (config : PostGenerationConfig) (outcome : GenOutcome) :
    GenerationStats × PostResult :=
  if content = [] ∨ pyStrip content = [] then
    ({ stats with
        total_generated := stats.total_generated + 1
        failed := stats.failed + 1 },
     { post := []
       error := some "Content cannot be empty".toList
       status := "failed"
       generation_time := 0
       word_count := none
       character_count := none })
  else
    let content := pyStrip content
    let content :=
      if (content.length : Int) > 2000 then content.take 2000 ++ "...".toList
      else content
    let base_prompt := basePrompt config.tone content
    let enhanced_prompt := _enhance_prompt_with_context base_prompt config
    match _generate_with_timeout stats enhanced_prompt outcome config with
    | (stats1, .ok generated_text) =>
        let final_post := _post_process_generated_text generated_text config
        let generation_time := genDuration outcome
        let total := stats1.total_generated + 1
        let total_time := stats1.average_generation_time * ((total : ℚ) - 1)
        ({ stats1 with
            total_generated := total
            successful := stats1.successful + 1
            average_generation_time := (total_time + generation_time) / (total : ℚ) },
         { post := final_post
           error := none
           status := "success"
           generation_time := generation_time
           word_count := some (pySplit final_post).length
           character_count := some final_post.length })
    | (stats1, .error (.postGenerationTimeout msg)) =>
        ({ stats1 with
            total_generated := stats1.total_generated + 1
            timeout := stats1.timeout + 1 },
         { post := []
           error := some msg
           status := "timeout"
           generation_time := (config.generation_timeout : ℚ)
           word_count := none
           character_count := none })
    | (stats1, .error (.otherError msg)) =>
        ({ stats1 with
            total_generated := stats1.total_generated + 1
            failed := stats1.failed + 1 },
         { post := []
           error := some msg
           status := "failed"
           generation_time := genDuration outcome
           word_count := none
           character_count := none })

/-- One generation attempt as seen by the statistics: its arguments and how
the underlying model call behaves. -/
structure Attempt where
  content : List Char
  config : PostGenerationConfig
  outcome : GenOutcome
  deriving Repr, DecidableEq

/-- Run a sequence of attempts, threading the statistics. -/
def runAll (stats : GenerationStats) : List Attempt → GenerationStats
  | [] => stats
  | a :: rest => runAll (generate_post stats a.content a.config a.outcome).1 rest

/-- The status strings produced along a run of attempts. -/
def runStatuses (stats : GenerationStats) : List Attempt → List String
  | [] => []
  | a :: rest =>
      let p := generate_post stats a.content a.config a.outcome
      p.2.status :: runStatuses p.1 rest

/-- Modelled from the spec: the durations of the successful attempts of a
run, used to recompute the arithmetic mean independently of the
incremental update. -/
def successDurations (stats : GenerationStats) : List Attempt → List ℚ
  | [] => []
  | a :: rest =>
      let p := generate_post stats a.content a.config a.outcome
      (if p.2.status = "success" then [p.2.generation_time] else []) ++
        successDurations p.1 rest

/-- Modelled from the spec: the arithmetic mean of the durations of the
successful attempts of a run started from a fresh generator. -/
def specSuccessMean (l : List Attempt) : ℚ :=
  (successDurations initialStats l).sum / ((successDurations initialStats l).length : ℚ)

/-- When the timeout wrapper returns the generated text, the statistics
are untouched. -/
theorem gwt_ok_stats (stats : GenerationStats) (p : List Char) (o : GenOutcome)
    (cfg : PostGenerationConfig) (s1 : GenerationStats) (t : List Char)
    (h : _generate_with_timeout stats p o cfg = (s1, .ok t)) : s1 = stats := by
  unfold _generate_with_timeout at h
  cases o <;> simp only at h <;> split_ifs at h <;> simp_all

/-- When the timeout wrapper raises `PostGenerationTimeout`, it has already
incremented the timeout counter once. -/
theorem gwt_timeout_stats (stats : GenerationStats) (p : List Char) (o : GenOutcome)
    (cfg : PostGenerationConfig) (s1 : GenerationStats) (m : List Char)
    (h : _generate_with_timeout stats p o cfg = (s1, .error (.postGenerationTimeout m))) :
    s1 = { stats with timeout := stats.timeout + 1 } := by
  unfold _generate_with_timeout at h
  cases o <;> simp only at h <;> split_ifs at h <;> simp_all

/-- When the timeout wrapper re-raises the generation call's own
exception, the statistics are untouched. -/
theorem gwt_other_stats (stats : GenerationStats) (p : List Char) (o : GenOutcome)
    (cfg : PostGenerationConfig) (s1 : GenerationStats) (m : List Char)
    (h : _generate_with_timeout stats p o cfg = (s1, .error (.otherError m))) :
    s1 = stats := by
  unfold _generate_with_timeout at h
  cases o <;> simp only at h <;> split_ifs at h <;> simp_all

/-- Explicit form of `generate_post` on the validation-failure path. -/
theorem generate_post_validation (stats : GenerationStats) (c : List Char)
    (cfg : PostGenerationConfig) (o : GenOutcome) (h : c = [] ∨ pyStrip c = []) :
    generate_post stats c cfg o =
      ({ stats with total_generated := stats.total_generated + 1, failed := stats.failed + 1 },
       { post := [], error := some "Content cannot be empty".toList, status := "failed",
         generation_time := 0, word_count := none, character_count := none }) := by
  unfold generate_post
  rw [if_pos h]

/-- Explicit form of `generate_post` on the success path. -/
theorem generate_post_success (stats : GenerationStats) (c : List Char)
    (cfg : PostGenerationConfig) (t : List Char) (d : ℚ)
    (hc : ¬(c = [] ∨ pyStrip c = [])) (hd : d ≤ (cfg.generation_timeout : ℚ)) :
    generate_post stats c cfg (.completes t d) =
      ({ total_generated := stats.total_generated + 1,
         successful := stats.successful + 1,
         failed := stats.failed,
         timeout := stats.timeout,
         average_generation_time :=
           (stats.average_generation_time * (((stats.total_generated + 1 : Nat) : ℚ) - 1) + d)
             / ((stats.total_generated + 1 : Nat) : ℚ) },
       { post := _post_process_generated_text t cfg, error := none, status := "success",
         generation_time := d,
         word_count := some (pySplit (_post_process_generated_text t cfg)).length,
         character_count := some (_post_process_generated_text t cfg).length }) := by
  unfold generate_post _generate_with_timeout
  rw [if_neg hc]
  simp only [genDuration]
  rw [if_pos hd]

/-- Explicit form of `generate_post` on the timeout path: the timeout
counter is incremented twice, once inside `_generate_with_timeout` and
once in the handler of `PostGenerationTimeout`. -/
theorem generate_post_timed_out (stats : GenerationStats) (c : List Char)
    (cfg : PostGenerationConfig) (o : GenOutcome)
    (hc : ¬(c = [] ∨ pyStrip c = [])) (hd : ¬ genDuration o ≤ (cfg.generation_timeout : ℚ)) :
    generate_post stats c cfg o =
      ({ total_generated := stats.total_generated + 1,
         successful := stats.successful,
         failed := stats.failed,
         timeout := stats.timeout + 1 + 1,
         average_generation_time := stats.average_generation_time },
       { post := [], error := some (timeoutMsg cfg.generation_timeout), status := "timeout",
         generation_time := (cfg.generation_timeout : ℚ),
         word_count := none, character_count := none }) := by
  unfold generate_post _generate_with_timeout
  rw [if_neg hc]
  cases o <;> simp only [genDuration] at hd ⊢ <;> rw [if_neg hd]

/-- Explicit form of `generate_post` when the generation call raises its
own exception within the budget. -/
theorem generate_post_failure (stats : GenerationStats) (c : List Char)
    (cfg : PostGenerationConfig) (m : List Char) (d : ℚ)
    (hc : ¬(c = [] ∨ pyStrip c = [])) (hd : d ≤ (cfg.generation_timeout : ℚ)) :
    generate_post stats c cfg (.raisesExc m d) =
      ({ total_generated := stats.total_generated + 1,
         successful := stats.successful,
         failed := stats.failed + 1,
         timeout := stats.timeout,
         average_generation_time := stats.average_generation_time },
       { post := [], error := some m, status := "failed",
         generation_time := d, word_count := none, character_count := none }) := by
  unfold generate_post _generate_with_timeout
  rw [if_neg hc]
  simp only [genDuration]
  rw [if_pos hd]

/-- Every call of `generate_post` produces one of the three statuses. -/
theorem generate_post_status_cases (stats : GenerationStats) (c : List Char)
    (cfg : PostGenerationConfig) (o : GenOutcome) :
    (generate_post stats c cfg o).2.status = "success" ∨
    (generate_post stats c cfg o).2.status = "failed" ∨
    (generate_post stats c cfg o).2.status = "timeout" := by
  by_cases hc : c = [] ∨ pyStrip c = []
  · rw [generate_post_validation stats c cfg o hc]
    right; left; rfl
  · cases o with
    | completes t d =>
      by_cases hd : d ≤ (cfg.generation_timeout : ℚ)
      · rw [generate_post_success stats c cfg t d hc hd]
        left; rfl
      · rw [generate_post_timed_out stats c cfg _ hc (by simpa [genDuration] using hd)]
        right; right; rfl
    | raisesExc m d =>
      by_cases hd : d ≤ (cfg.generation_timeout : ℚ)
      · rw [generate_post_failure stats c cfg m d hc hd]
        right; left; rfl
      · rw [generate_post_timed_out stats c cfg _ hc (by simpa [genDuration] using hd)]
        right; right; rfl

/-- Per-call counter discipline: the attempt counter always advances by
one; the successful and failed counters advance by one exactly on their
status; the timeout counter advances by two on a timeout. -/
theorem generate_post_counters (stats : GenerationStats) (c : List Char)
    (cfg : PostGenerationConfig) (o : GenOutcome) :
    (generate_post stats c cfg o).1.total_generated = stats.total_generated + 1 ∧
    (generate_post stats c cfg o).1.successful =
      stats.successful + (if (generate_post stats c cfg o).2.status = "success" then 1 else 0) ∧
    (generate_post stats c cfg o).1.failed =
      stats.failed + (if (generate_post stats c cfg o).2.status = "failed" then 1 else 0) ∧
    (generate_post stats c cfg o).1.timeout =
      stats.timeout + (if (generate_post stats c cfg o).2.status = "timeout" then 2 else 0) := by
  by_cases hc : c = [] ∨ pyStrip c = []
  · rw [generate_post_validation stats c cfg o hc]
    refine ⟨rfl, by simp, by simp, by simp⟩
  · cases o with
    | completes t d =>
      by_cases hd : d ≤ (cfg.generation_timeout : ℚ)
      · rw [generate_post_success stats c cfg t d hc hd]
        refine ⟨rfl, by simp, by simp, by simp⟩
      · rw [generate_post_timed_out stats c cfg _ hc (by simpa [genDuration] using hd)]
        refine ⟨rfl, by simp, by simp, by simp⟩
    | raisesExc m d =>
      by_cases hd : d ≤ (cfg.generation_timeout : ℚ)
      · rw [generate_post_failure stats c cfg m d hc hd]
        refine ⟨rfl, by simp, by simp, by simp⟩
      · rw [generate_post_timed_out stats c cfg _ hc (by simpa [genDuration] using hd)]
        refine ⟨rfl, by simp, by simp, by simp⟩

/-- The doubled-timeout counter invariant, threaded through an arbitrary
run of attempts. -/
theorem runAll_counters (l : List Attempt) : ∀ stats : GenerationStats,
    2 * (runAll stats l).total_generated + 2 * stats.successful + 2 * stats.failed
      + stats.timeout =
    2 * stats.total_generated + 2 * (runAll stats l).successful
      + 2 * (runAll stats l).failed + (runAll stats l).timeout := by
  induction l with
  | nil => intro stats; simp [runAll]
  | cons a rest ih =>
    intro stats
    have hc := generate_post_counters stats a.content a.config a.outcome
    have hs := generate_post_status_cases stats a.content a.config a.outcome
    have hr := ih (generate_post stats a.content a.config a.outcome).1
    simp only [runAll] at hr ⊢
    rcases hs with h | h | h <;> rw [h] at hc <;> simp at hc <;> omega

/-- On a successful attempt the running average is updated by the
incremental rule whose divisor is the new value of the
total-attempt counter. -/
theorem success_avg_update (stats : GenerationStats) (c : List Char)
    (cfg : PostGenerationConfig) (o : GenOutcome)
    (h : (generate_post stats c cfg o).2.status = "success") :
    (generate_post stats c cfg o).1.total_generated = stats.total_generated + 1 ∧
    (generate_post stats c cfg o).1.average_generation_time =
      (stats.average_generation_time * (stats.total_generated : ℚ) +
        (generate_post stats c cfg o).2.generation_time) /
        ((stats.total_generated : ℚ) + 1) := by
  by_cases hc : c = [] ∨ pyStrip c = []
  · rw [generate_post_validation stats c cfg o hc] at h
    simp at h
  · cases o with
    | completes t d =>
      by_cases hd : d ≤ (cfg.generation_timeout : ℚ)
      · rw [generate_post_success stats c cfg t d hc hd]
        refine ⟨rfl, ?_⟩
        push_cast
        ring_nf
      · rw [generate_post_timed_out stats c cfg _ hc (by simpa [genDuration] using hd)] at h
        simp at h
    | raisesExc m d =>
      by_cases hd : d ≤ (cfg.generation_timeout : ℚ)
      · rw [generate_post_failure stats c cfg m d hc hd] at h
        simp at h
      · rw [generate_post_timed_out stats c cfg _ hc (by simpa [genDuration] using hd)] at h
        simp at h

/-- For a run in which every attempt reports success, the total counter
advances by the length of the run, every attempt contributes its duration,
and the running average times the attempt count equals the accumulated
duration sum. -/
theorem runAll_all_success (l : List Attempt) : ∀ stats : GenerationStats,
    (∀ st ∈ runStatuses stats l, st = "success") →
    (runAll stats l).total_generated = stats.total_generated + l.length ∧
    (successDurations stats l).length = l.length ∧
    (runAll stats l).average_generation_time * ((runAll stats l).total_generated : ℚ) =
      stats.average_generation_time * (stats.total_generated : ℚ) +
        (successDurations stats l).sum := by
  induction l with
  | nil =>
    intro stats _
    refine ⟨by simp [runAll], by simp [successDurations], by simp [runAll, successDurations]⟩
  | cons a rest ih =>
    intro stats h
    have hstat : (generate_post stats a.content a.config a.outcome).2.status = "success" := by
      apply h
      simp [runStatuses]
    have hrest : ∀ st ∈ runStatuses (generate_post stats a.content a.config a.outcome).1 rest,
        st = "success" := by
      intro st hst
      apply h
      simp [runStatuses]
      right
      exact hst
    obtain ⟨h1, h2⟩ := success_avg_update stats a.content a.config a.outcome hstat
    obtain ⟨ih1, ih2, ih3⟩ := ih _ hrest
    refine ⟨?_, ?_, ?_⟩
    · simp only [runAll] at ih1 ⊢
      rw [ih1, h1]
      simp
      omega
    · simp only [successDurations]
      rw [if_pos hstat]
      simp [ih2]
    · simp only [runAll, successDurations] at ih3 ⊢
      rw [ih3, h2, h1, if_pos hstat]
      have hne : ((stats.total_generated : ℚ) + 1) ≠ 0 := by positivity
      push_cast
      rw [div_mul_cancel₀ _ hne]
      simp
      ring

end PostGen

namespace WorkerPool

/-- The loop body of `Worker.run` always completes normally: whatever the
job's callable does, the `except Exception` clause catches it. -/
theorem runJobBody_snd (j : Job) : (runJobBody j).2 = .ok () := by
  obtain ⟨f, t, d⟩ := j
  cases f <;> rfl

/-- Closed form of the worker loop: with `fuel` iterations before the stop
flag is observed, the worker executes the first `fuel` queued jobs (each
with its logs) and leaves the rest in the queue; it never dies early. -/
theorem workerRun_eq (fuel : Nat) : ∀ q : List Job,
    workerRun q fuel =
      ((q.take fuel).map (fun j => (j, (runJobBody j).1)), q.drop fuel) := by
  induction fuel with
  | zero => intro q; cases q <;> rfl
  | succ n ih =>
    intro q
    cases q with
    | nil => simpa [workerRun] using ih []
    | cons j rest =>
      cases hf : j.func with
      | ok v => simp [workerRun, runJobBody, hf, ih rest]
      | raised e => simp [workerRun, runJobBody, hf, ih rest]

/-- A concrete job sitting in the queue when `shutdown()` is called. -/
def demoJob : Job := { func := .ok (), timeout := 300, description := "queued job" }

end WorkerPool

namespace Bridge

open WorkerPool

/-- Trace of a bridged call: projection of `wrapExec` onto its events. -/
theorem wrapExec_trace_ok {α : Type} (v : α) :
    (wrapExec (.ok v)).2.1 = [BridgeEvent.write v, BridgeEvent.signal] := rfl

end Bridge

open WorkerPool Bridge PostGen

/-- C1: a job whose callable raises is caught and logged by the Worker,
which continues its loop: running the worker over any queue that contains
such a job executes every job of the queue in order (in particular all the
jobs after the raising one), abandons none of them, and the raising job's
log records the failure. -/
theorem C1_worker_catches_logs_and_continues (pre post : List Job)
    (e desc : String) (t : Nat) :
    workerRun (pre ++ { func := .raised e, timeout := t, description := desc } :: post)
        (pre ++ { func := .raised e, timeout := t, description := desc } :: post).length =
      ((pre ++ { func := .raised e, timeout := t, description := desc } :: post).map
        (fun j => (j, (runJobBody j).1)), []) ∧
    LogEvent.jobFailed e ∈
      (runJobBody { func := .raised e, timeout := t, description := desc }).1 := by
  constructor
  · rw [workerRun_eq]
    simp
  · simp [runJobBody]

/-- C2 counterexample: for a callable that raises, `_wrap` raises before
`completed.set()`; the Worker swallows the exception (second conjunct),
so the event is never set and `completed.wait()` blocks the caller forever
(`none`), instead of delivering the empty result `some none` that the
claim promises. -/
theorem C2_counterexample_raising_fn_blocks_caller :
    run_sync_in_worker (PyResult.raised "boom" : PyResult Nat) = none ∧
    run_sync_in_worker (PyResult.raised "boom" : PyResult Nat) ≠ some none ∧
    (runJobBody { func := (wrapExec (PyResult.raised "boom" : PyResult Nat)).2.2
                  timeout := 300
                  description := "job" }).2 = PyResult.ok () := by
  refine ⟨rfl, by decide, rfl⟩

/-- C2 amended: the caller of the Synchronous Bridge observes the job's
return value whenever `fn` returns normally; but when `fn` raises, the
completion event is never set and the caller blocks forever (no
empty/absent result is delivered). -/
theorem C2_amended_bridge_outcome (α : Type) (v : α) (e : String) :
    run_sync_in_worker (PyResult.ok v) = some (some v) ∧
    run_sync_in_worker (PyResult.raised e : PyResult α) = none :=
  ⟨rfl, rfl⟩

/-- C3 counterexample: a pool whose worker is idle when `shutdown()` is
called, with one job still queued: the worker observes the stop flag at
its next loop-top check and exits, `shutdown()` returns after the join,
and the queued job is never executed — refuting the claim that all queued
jobs complete before `shutdown()` returns. -/
theorem C3_counterexample_queued_job_abandoned :
    (shutdownRun none [demoJob]).1 = [] ∧
    (shutdownRun none [demoJob]).2 = [demoJob] :=
  ⟨rfl, rfl⟩

/-- C3 amended: `shutdown()` is a join-style wait for the workers
themselves, not for the queue: a worker finishes the job it is currently
executing before exiting (first two conjuncts), an idle worker executes
nothing further, jobs still queued when the stop flag is observed are left
unexecuted, and jobs submitted after shutdown (the workers having exited)
are never executed. -/
theorem C3_amended_shutdown_join_semantics (j : Job) (q newJobs : List Job) :
    (shutdownRun (some j) q).1 = [(j, (runJobBody j).1)] ∧
    (shutdownRun (some j) q).2 = q ∧
    (shutdownRun none q).1 = [] ∧
    (workerRun (newJobs.foldl submit_job q) 0).1 = [] := by
  refine ⟨?_, ?_, ?_, ?_⟩ <;> simp [shutdownRun, workerRun_eq]

/-- C7 counterexample: the completion signal does not fire exactly once on
every bridged call: for a callable that raises, the trace of `_wrap`
contains no signal at all. -/
theorem C7_counterexample_signal_can_fire_zero_times :
    countSignals (wrapExec (PyResult.raised "boom" : PyResult Nat)).2.1 = 0 := rfl

/-- C7 amended: on every bridged call the result slot is written at most
once, every write happens strictly before any signal, and the signal fires
at most once — exactly once when the callable returns normally and zero
times when it raises. -/
theorem C7_amended_handoff_discipline (α : Type) (fn : PyResult α) :
    countWrites (wrapExec fn).2.1 ≤ 1 ∧
    writesBeforeSignals (wrapExec fn).2.1 ∧
    countSignals (wrapExec fn).2.1 = (match fn with | .ok _ => 1 | .raised _ => 0) := by
  cases fn with
  | ok v =>
    refine ⟨by simp [wrapExec, countWrites], ?_, by simp [wrapExec, countSignals]⟩
    intro i j w h1 h2
    rcases i with _ | _ | i
    · rcases j with _ | _ | j
      · simp [wrapExec] at h2
      · exact Nat.zero_lt_one
      · simp [wrapExec] at h2
    · simp [wrapExec] at h1
    · simp [wrapExec] at h1
  | raised e =>
    refine ⟨by simp [wrapExec, countWrites], ?_, by simp [wrapExec, countSignals]⟩
    intro i j w h1 _
    simp [wrapExec] at h1

/-- C8: round-trip identity of the Synchronous Bridge — for a callable
returning `v`, the caller unblocks and receives exactly `v` from the
result slot. -/
theorem C8_round_trip_identity (α : Type) (v : α) :
    run_sync_in_worker (PyResult.ok v) = some (some v) := rfl

/-- C4 counterexample: starting from fresh statistics, a single attempt
whose generation call overruns the default 30-second budget leaves the
timeout counter at 2 (incremented once in the wrapper and once in the
handler), so a timed-out attempt does not increment it by exactly one and
total_generated no longer equals successful + timeout + failed. -/
theorem C4_counterexample_timeout_double_count :
    (generate_post initialStats "hello world".toList {}
        (.completes "Great content here.".toList 100)).1.timeout = 2 ∧
    (generate_post initialStats "hello world".toList {}
        (.completes "Great content here.".toList 100)).1.total_generated = 1 ∧
    (generate_post initialStats "hello world".toList {}
        (.completes "Great content here.".toList 100)).1.total_generated ≠
      (generate_post initialStats "hello world".toList {}
          (.completes "Great content here.".toList 100)).1.successful +
        (generate_post initialStats "hello world".toList {}
            (.completes "Great content here.".toList 100)).1.timeout +
        (generate_post initialStats "hello world".toList {}
            (.completes "Great content here.".toList 100)).1.failed := by
  refine ⟨by decide, by decide, by decide⟩

/-- C4 amended: every attempt increments total_generated by exactly one;
a successful attempt increments the successful counter by one, a failed
attempt the failed counter by one, but a timed-out attempt increments the
timeout counter by two (once in the wrapper, once in the handler); hence
for any run from fresh statistics the invariant is
2 * total_generated = 2 * successful + 2 * failed + timeout. -/
theorem C4_amended_counter_updates (stats : GenerationStats) (c : List Char)
    (cfg : PostGenerationConfig) (o : GenOutcome) (l : List Attempt) :
    (generate_post stats c cfg o).1.total_generated = stats.total_generated + 1 ∧
    (generate_post stats c cfg o).1.successful =
      stats.successful + (if (generate_post stats c cfg o).2.status = "success" then 1 else 0) ∧
    (generate_post stats c cfg o).1.failed =
      stats.failed + (if (generate_post stats c cfg o).2.status = "failed" then 1 else 0) ∧
    (generate_post stats c cfg o).1.timeout =
      stats.timeout + (if (generate_post stats c cfg o).2.status = "timeout" then 2 else 0) ∧
    2 * (runAll initialStats l).total_generated =
      2 * (runAll initialStats l).successful + 2 * (runAll initialStats l).failed +
        (runAll initialStats l).timeout := by
  obtain ⟨h1, h2, h3, h4⟩ := generate_post_counters stats c cfg o
  have h5 := runAll_counters l initialStats
  have e1 : initialStats.successful = 0 := rfl
  have e2 : initialStats.failed = 0 := rfl
  have e3 : initialStats.timeout = 0 := rfl
  have e4 : initialStats.total_generated = 0 := rfl
  rw [e1, e2, e3, e4] at h5
  exact ⟨h1, h2, h3, h4, by omega⟩

/-- An attempt rejected by input validation (empty content). -/
def failAttempt : Attempt where
  content := []
  config := {}
  outcome := .completes "ok".toList 1

/-- A successful attempt taking 2 seconds. -/
def succAttempt : Attempt where
  content := "hello world".toList
  config := {}
  outcome := .completes "Great content here.".toList 2

/-- C5 counterexample: after one failed attempt and one successful attempt
of duration 2, the running average is 1 — the incremental divisor is
total_generated (2 attempts), not the success count — while the arithmetic
mean of the successful durations is 2. -/
theorem C5_counterexample_mean_over_all_attempts :
    (runAll initialStats [failAttempt, succAttempt]).average_generation_time = 1 ∧
    specSuccessMean [failAttempt, succAttempt] = 2 ∧
    (runAll initialStats [failAttempt, succAttempt]).average_generation_time ≠
      specSuccessMean [failAttempt, succAttempt] := by
  have e1 : (generate_post initialStats [] {} (.completes "ok".toList 1)).1 =
      ⟨1, 0, 1, 0, 0⟩ := by decide
  have e2 := generate_post_success ⟨1, 0, 1, 0, 0⟩ "hello world".toList {}
    "Great content here.".toList 2 (by decide) (by norm_num)
  have hrun : (runAll initialStats [failAttempt, succAttempt]).average_generation_time = 1 := by
    simp only [runAll, failAttempt, succAttempt, e1, e2]
    push_cast
    norm_num
  have hdur : successDurations initialStats [failAttempt, succAttempt] = [2] := by decide
  have hmean : specSuccessMean [failAttempt, succAttempt] = 2 := by
    rw [specSuccessMean, hdur]
    norm_num
  refine ⟨hrun, hmean, by rw [hrun, hmean]; norm_num⟩

/-- C5 amended: the incremental update divides by total_generated, which
counts every attempt; therefore the running average equals the arithmetic
mean of the successful durations for runs in which every attempt
succeeded (where the two counts coincide), and total_generated then equals
the number of attempts. -/
theorem C5_amended_mean_for_all_success_runs (l : List Attempt)
    (h : ∀ st ∈ runStatuses initialStats l, st = "success") :
    (runAll initialStats l).average_generation_time = specSuccessMean l ∧
    (runAll initialStats l).total_generated = l.length := by
  obtain ⟨h1, h2, h3⟩ := runAll_all_success l initialStats h
  have e4 : initialStats.total_generated = 0 := rfl
  have e5 : initialStats.average_generation_time = 0 := rfl
  rw [e4] at h1
  rw [e4, e5] at h3
  norm_num at h1 h3
  refine ⟨?_, h1⟩
  rcases Nat.eq_zero_or_pos l.length with h0 | h0
  · have hnil : l = [] := List.length_eq_zero.mp h0
    subst hnil
    simp [runAll, initialStats, specSuccessMean, successDurations]
  · have hne : (((successDurations initialStats l).length : ℚ)) ≠ 0 := by
      rw [h2]
      exact Nat.cast_ne_zero.mpr (Nat.pos_iff_ne_zero.mp h0)
    rw [specSuccessMean, eq_div_iff hne, h2, ← h1]
    exact h3

/-- A successful attempt taking 1 second. -/
def succAttempt1 : Attempt where
  content := "hello world".toList
  config := {}
  outcome := .completes "Great content here.".toList 1

/-- A successful attempt taking 3 seconds. -/
def succAttempt3 : Attempt where
  content := "hello world".toList
  config := {}
  outcome := .completes "Great content here.".toList 3

/-- Witness for the amended C5: three successes of durations 1, 2 and 3
seconds give a running average of exactly their arithmetic mean, 2. -/
theorem C5_amended_witness :
    (∀ st ∈ runStatuses initialStats [succAttempt1, succAttempt, succAttempt3],
        st = "success") ∧
    ((runAll initialStats [succAttempt1, succAttempt, succAttempt3]).average_generation_time =
        specSuccessMean [succAttempt1, succAttempt, succAttempt3] ∧
      (runAll initialStats [succAttempt1, succAttempt, succAttempt3]).total_generated =
        [succAttempt1, succAttempt, succAttempt3].length) ∧
    specSuccessMean [succAttempt1, succAttempt, succAttempt3] = 2 := by
  have hdur : successDurations initialStats [succAttempt1, succAttempt, succAttempt3] =
      [1, 2, 3] := by decide
  refine ⟨by decide,
    C5_amended_mean_for_all_success_runs [succAttempt1, succAttempt, succAttempt3] (by decide),
    ?_⟩
  rw [specSuccessMean, hdur]
  norm_num

/-- C6 counterexample: with generation_timeout = 0 and a 5-second model
call, generate_post reports the timeout outcome (message included) and
bumps the timeout counters — it does not fail fast with a distinct
validation error. -/
theorem C6_counterexample_zero_timeout_not_validated :
    (generate_post initialStats "hello world".toList { generation_timeout := 0 }
        (.completes "Great content here.".toList 5)).2.status = "timeout" ∧
    (generate_post initialStats "hello world".toList { generation_timeout := 0 }
        (.completes "Great content here.".toList 5)).2.error = some (timeoutMsg 0) ∧
    (generate_post initialStats "hello world".toList { generation_timeout := 0 }
        (.completes "Great content here.".toList 5)).1.timeout = 2 := by
  refine ⟨by decide, by decide, by decide⟩

/-- C6 amended: a non-positive generation_timeout is accepted without any
validation; the wrapper hands it to the bounded wait, which then expires
immediately for any call of positive duration, so the attempt yields the
timeout outcome (PostGenerationTimeout raised, timeout counter bumped)
rather than a validation error. -/
theorem C6_amended_nonpositive_timeout_immediate (stats : GenerationStats)
    (p t m : List Char) (d : ℚ) (cfg : PostGenerationConfig)
    (h1 : cfg.generation_timeout ≤ 0) (h2 : 0 < d) :
    _generate_with_timeout stats p (.completes t d) cfg =
      ({ stats with timeout := stats.timeout + 1 },
       .error (.postGenerationTimeout (timeoutMsg cfg.generation_timeout))) ∧
    _generate_with_timeout stats p (.raisesExc m d) cfg =
      ({ stats with timeout := stats.timeout + 1 },
       .error (.postGenerationTimeout (timeoutMsg cfg.generation_timeout))) := by
  have hcast : (cfg.generation_timeout : ℚ) ≤ 0 := by exact_mod_cast h1
  have hd : ¬ d ≤ (cfg.generation_timeout : ℚ) := by linarith
  constructor <;> simp [_generate_with_timeout, hd]

/-- Witness for the amended C6 at generation_timeout = 0 and a 5-second
call. -/
theorem C6_amended_witness :
    (({ generation_timeout := 0 } : PostGenerationConfig).generation_timeout ≤ 0) ∧
    ((0 : ℚ) < 5) ∧
    (_generate_with_timeout initialStats [] (.completes "ok".toList 5)
        { generation_timeout := 0 } =
      ({ initialStats with timeout := initialStats.timeout + 1 },
       .error (.postGenerationTimeout
         (timeoutMsg ({ generation_timeout := 0 } : PostGenerationConfig).generation_timeout))) ∧
     _generate_with_timeout initialStats [] (.raisesExc "err".toList 5)
        { generation_timeout := 0 } =
      ({ initialStats with timeout := initialStats.timeout + 1 },
       .error (.postGenerationTimeout
         (timeoutMsg ({ generation_timeout := 0 } : PostGenerationConfig).generation_timeout)))) :=
  ⟨by decide, by decide,
   C6_amended_nonpositive_timeout_immediate initialStats [] "ok".toList "err".toList 5
     { generation_timeout := 0 } (by decide) (by decide)⟩

/-- C9: blank content (empty or whitespace-only) does not raise out of
generate_post: the ValueError is caught by the generic handler, producing
status failed, an empty post and the non-empty message, with exactly the
failed and total counters incremented. -/
theorem C9_blank_content_failed_result (stats : GenerationStats) (c : List Char)
    (cfg : PostGenerationConfig) (o : GenOutcome)
    (h : ∀ ch ∈ c, ch.isWhitespace) :
    generate_post stats c cfg o =
      ({ stats with total_generated := stats.total_generated + 1, failed := stats.failed + 1 },
       { post := [], error := some "Content cannot be empty".toList, status := "failed",
         generation_time := 0, word_count := none, character_count := none }) ∧
    "Content cannot be empty".toList ≠ [] := by
  have hstrip : pyStrip c = [] := by
    have hl : lstrip c = [] := List.dropWhile_eq_nil_iff.mpr h
    simp [pyStrip, hl, rstrip]
  exact ⟨generate_post_validation stats c cfg o (Or.inr hstrip), by decide⟩

namespace PostGen

/-- Dropping a matched head-segment never lengthens a list. -/
theorem length_dropWhile_le (p : Char → Bool) (l : List Char) :
    (l.dropWhile p).length ≤ l.length := by
  induction l with
  | nil => simp
  | cons c cs ih =>
    by_cases h : p c
    · simp only [List.dropWhile_cons, h, if_true, List.length_cons]
      omega
    · simp [List.dropWhile_cons, h]

/-- Python `strip` never lengthens a string. -/
theorem length_pyStrip_le (s : List Char) : (pyStrip s).length ≤ s.length := by
  calc (pyStrip s).length
      = ((lstrip s).reverse.dropWhile Char.isWhitespace).length := by
        simp [pyStrip, rstrip]
    _ ≤ (lstrip s).reverse.length := length_dropWhile_le _ _
    _ = (lstrip s).length := by simp
    _ ≤ s.length := length_dropWhile_le _ _

/-- Invariant of the word-boundary trim loop: either nothing is kept, or
the running length accounting keeps the joined words within the budget. -/
theorem trimWords_joined_le (maxLen : Int) : ∀ (ws : List (List Char)) (cur : Nat),
    trimWords maxLen ws cur = [] ∨
    (cur : Int) + 1 + ((joinSpace (trimWords maxLen ws cur)).length : Int) ≤ maxLen + 1 := by
  intro ws
  induction ws with
  | nil => intro cur; left; rfl
  | cons w rest ih =>
    intro cur
    by_cases h : (cur : Int) + w.length + 1 ≤ maxLen
    · right
      simp only [trimWords, if_pos h]
      rcases ih (cur + w.length + 1) with h2 | h2
      · rw [h2]
        simp only [joinSpace]
        omega
      · cases h3 : trimWords maxLen rest (cur + w.length + 1) with
        | nil =>
          simp only [joinSpace]
          omega
        | cons v tail =>
          rw [h3] at h2
          simp only [joinSpace, List.length_append, List.length_cons] at h2 ⊢
          push_cast at h2 ⊢
          omega
    · left
      simp only [trimWords, if_neg h]

/-- The final strip applied to either branch of the length check stays
within `maxLen + 3`. -/
theorem pyStrip_branch_le (maxLen : Int) (hm : 0 ≤ maxLen) (s : List Char) :
    ((pyStrip (if (s.length : Int) > maxLen then
        (if ¬ endsWithPunct (joinSpace (trimWords maxLen (pySplit s) 0)) then
           joinSpace (trimWords maxLen (pySplit s) 0) ++ "...".toList
         else joinSpace (trimWords maxLen (pySplit s) 0))
      else s)).length : Int) ≤ maxLen + 3 := by
  by_cases hlen : (s.length : Int) > maxLen
  · rw [if_pos hlen]
    have hj : ((joinSpace (trimWords maxLen (pySplit s) 0)).length : Int) ≤ maxLen := by
      rcases trimWords_joined_le maxLen (pySplit s) 0 with hb | hb
      · rw [hb]
        simpa [joinSpace] using hm
      · push_cast at hb ⊢
        omega
    by_cases hp : endsWithPunct (joinSpace (trimWords maxLen (pySplit s) 0))
    · rw [if_neg (by simpa using hp)]
      have hs := length_pyStrip_le (joinSpace (trimWords maxLen (pySplit s) 0))
      push_cast at hs hj ⊢
      omega
    · rw [if_pos (by simpa using hp)]
      have hs := length_pyStrip_le
        (joinSpace (trimWords maxLen (pySplit s) 0) ++ "...".toList)
      have h3 : ("...".toList).length = 3 := rfl
      rw [List.length_append, h3] at hs
      push_cast at hs hj ⊢
      omega
  · rw [if_neg hlen]
    have hs := length_pyStrip_le s
    push_cast at hs ⊢
    omega

end PostGen

/-- C10: for every input string and every configuration with a
non-negative max_length, the post-processed text has length at most
max_length + 3: the word-boundary trim keeps the joined words within the
budget and the appended ellipsis adds at most three characters. -/
theorem C10_post_process_length_bound (text : List Char) (cfg : PostGenerationConfig)
    (h : 0 ≤ cfg.max_length) :
    ((_post_process_generated_text text cfg).length : Int) ≤ cfg.max_length + 3 := by
  by_cases h0 : text = []
  · subst h0
    unfold _post_process_generated_text
    rw [if_pos rfl]
    simp
    omega
  · have heq : _post_process_generated_text text cfg =
        pyStrip (if ((capitalizeFirst
            (redundant_phrases.foldl (fun t p => pyStrip (replaceAll p t)) text)).length : Int) >
              cfg.max_length then
          (if ¬ endsWithPunct (joinSpace (trimWords cfg.max_length
              (pySplit (capitalizeFirst
                (redundant_phrases.foldl (fun t p => pyStrip (replaceAll p t)) text))) 0)) then
             joinSpace (trimWords cfg.max_length
               (pySplit (capitalizeFirst
                 (redundant_phrases.foldl (fun t p => pyStrip (replaceAll p t)) text))) 0) ++
               "...".toList
           else joinSpace (trimWords cfg.max_length
             (pySplit (capitalizeFirst
               (redundant_phrases.foldl (fun t p => pyStrip (replaceAll p t)) text))) 0))
        else capitalizeFirst
          (redundant_phrases.foldl (fun t p => pyStrip (replaceAll p t)) text)) := by
      unfold _post_process_generated_text
      rw [if_neg h0]
    rw [heq]
    exact pyStrip_branch_le cfg.max_length h _

/-- Witness for C10 at a concrete string forced through the trim with
max_length 10. -/
theorem C10_witness :
    (0 : Int) ≤ ({ max_length := 10 } : PostGenerationConfig).max_length ∧
    ((_post_process_generated_text "hello world again and again".toList
        { max_length := 10 }).length : Int) ≤
      ({ max_length := 10 } : PostGenerationConfig).max_length + 3 :=
  ⟨by decide,
   C10_post_process_length_bound "hello world again and again".toList
     { max_length := 10 } (by decide)⟩

/-- Witness for C9 on a two-space content string. -/
theorem C9_witness :
    (∀ ch ∈ "  ".toList, ch.isWhitespace) ∧
    (generate_post initialStats "  ".toList {} (.completes "ok".toList 1) =
      ({ initialStats with total_generated := initialStats.total_generated + 1, failed := initialStats.failed + 1 },
       { post := [], error := some "Content cannot be empty".toList, status := "failed",
         generation_time := 0, word_count := none, character_count := none }) ∧
     "Content cannot be empty".toList ≠ []) :=
  ⟨by decide,
   C9_blank_content_failed_result initialStats "  ".toList {} (.completes "ok".toList 1)
     (by decide)⟩
